import Mathlib

/-!
Shallow embedding of `octoprint_display_panel/__init__.py` (OctoPrint-DisplayPanel):
the screen-mode cycle, the frame-rendering helpers, the event handlers and the
system-stats collection path, together with theorems settling the specification
claims about them.
-/

namespace DisplayPanel

/-- The `ScreenMode` enum. Members are listed in the Python definition order:
`PRINT = 1`, `PRINTER = 2`, `SYSTEM = 3`. -/
inductive ScreenMode where
  | PRINT
  | PRINTER
  | SYSTEM
deriving DecidableEq, BEq, Repr

/-- The member list `list(self.__class__)` used by `ScreenMode.next`: Python
iterates an Enum class in definition order. -/
def ScreenMode.members : List ScreenMode := [.PRINT, .PRINTER, .SYSTEM]

/-- Embedding of `ScreenMode.next`: take the index of `self` in the member
list, add one, wrap to zero past the end, and return the member at that index. -/
def ScreenMode.next (m : ScreenMode) : ScreenMode :=
  let members := ScreenMode.members
  let index := members.indexOf m + 1
  let index := if members.length ≤ index then 0 else index
  members.getD index .PRINT

/-- Display geometry from the source: `adafruit_ssd1306.SSD1306_I2C(128, 64, i2c)`. -/
def width : Nat := 128

/-- Display height, from the same constructor call. -/
def height : Nat := 64

/-- The fixed height of the persistent bottom region (`bottom_height = 22`). -/
def bottom_height : Nat := 22

/-- A drawing primitive issued against the PIL image buffer: a rectangle with
two corner coordinates, a fill and an outline, or a text string at a position.
The font and the fill colour of text are constant in the source and omitted.
Coordinates are rationals because Python computes some x positions by float
division (always by 2, so exact). -/
inductive DrawOp where
  | rect (x0 y0 x1 y1 : ℚ) (fill : Option Nat) (outline : Option Nat)
  | text (x y : ℚ) (s : String)
deriving DecidableEq, Repr

/-- Fields of the `psutil.virtual_memory()` result used by the renderer.
`percent` is a float rendered verbatim by `%s`, carried here as its rendered
string. -/
structure MemInfo where
  used : Nat
  total : Nat
  percentStr : String
deriving DecidableEq, Repr

/-- The `shutil.disk_usage` result: total, used and free bytes. -/
structure DiskUsage where
  total : Nat
  used : Nat
  free : Nat
deriving DecidableEq, Repr

/-- The `psutil.getloadavg()` triple; the three floats are rendered verbatim
by `%s`, carried here as their rendered strings. -/
structure LoadAvg where
  one : String
  five : String
  fifteen : String
deriving DecidableEq, Repr

/-- The `system_stats` dict. Each key is absent until the first tick that
reaches the corresponding assignment in `check_system_stats`; keys are never
removed. -/
structure SystemStats where
  ip : Option String := none
  load : Option LoadAvg := none
  memory : Option MemInfo := none
  disk : Option DiskUsage := none
deriving DecidableEq, Repr

/-- A stats dict with all four keys present. -/
def SystemStats.complete (st : SystemStats) : Prop :=
  st.ip.isSome ∧ st.load.isSome ∧ st.memory.isSome ∧ st.disk.isSome

/-- The dict states `check_system_stats` can actually produce: within a tick
the keys are assigned in the order ip, load, memory, disk, an exception stops
the tick, and keys are never removed, so a later key is present only when
every earlier one is. -/
def SystemStats.collector_reachable (st : SystemStats) : Prop :=
  (st.load.isSome → st.ip.isSome) ∧ (st.memory.isSome → st.load.isSome) ∧
    (st.disk.isSome → st.memory.isSome)

/-- The private `__print_data` dict: file name and progress percent. Progress
is the integer percentage (0..100) delivered by `on_print_progress`. -/
structure PrintData where
  fileName : String := ""
  progress : Nat := 0
deriving DecidableEq, Repr

/-- The placeholder line drawn by the except arm of `update_ui_system`. -/
def gatheringLine : DrawOp := .text 0 9 "Gathering System Stats"

/-- The black box clearing the top region, drawn first on every
mode-specific redraw. -/
def clearTopOp : DrawOp :=
  .rect 0 0 width ((height - bottom_height : Nat) : ℚ) (some 0) none

/-- Rendering of the Python float `n / 100` (nonnegative integer `n`) by
`%s`: the shortest round-tripping decimal, which for a value of at most two
decimal places is the exact decimal, trailing fractional zeros dropped but at
least one fractional digit kept (so 3000 renders as "30.0"). -/
def str_of_hundredths (n : Nat) : String :=
  let ip := toString (n / 100)
  let fp := n % 100
  if fp = 0 then ip ++ ".0"
  else if fp % 10 = 0 then ip ++ "." ++ toString (fp / 10)
  else if fp < 10 then ip ++ ".0" ++ toString fp
  else ip ++ "." ++ toString fp

/-- The integer `int(10000*disk.used/(disk.used+disk.free))` of the disk
line. Python true-divides and `int()` truncates toward zero, which on
nonnegative values is floor division; the float rounding of the quotient is
exact at every input considered here. -/
def disk_percent_times_100 (disk : DiskUsage) : Nat :=
  10000 * disk.used / (disk.used + disk.free)

/-- The fourth text line of the SYSTEM screen:
`"Disk: %s/%s GB %s%%" % (int(disk.used/1073741824),
int((disk.used+disk.total)/1073741824),
int(10000*disk.used/(disk.used+disk.free))/100)`. -/
def diskLine (disk : DiskUsage) : DrawOp :=
  .text 0 27 ("Disk: " ++ toString (disk.used / 1073741824) ++ "/" ++
    toString ((disk.used + disk.total) / 1073741824) ++ " GB " ++
    str_of_hundredths (disk_percent_times_100 disk) ++ "%")

/-- Embedding of `update_ui_system`: clear the top region, then run the try
block. The try block first reads `memory` and `disk` from the stats dict,
then draws the four lines in order; each line needs its own dict fields, and
a missing key raises KeyError at that point, aborting to the except arm,
which draws the single placeholder line. Draws issued before the failure have
already hit the buffer, so they stay in the returned op list. -/
def update_ui_system (st : SystemStats) : List DrawOp :=
  let ops :=
    match st.memory, st.disk with
    | some mem, some disk =>
      match st.ip with
      | none => [gatheringLine]
      | some ip =>
        let ipOp := DrawOp.text 0 0 ("IP: " ++ ip)
        match st.load with
        | none => [ipOp, gatheringLine]
        | some load =>
          [ipOp,
           DrawOp.text 0 9 ("Load: " ++ load.one ++ ", " ++ load.five ++ ", " ++ load.fifteen),
           DrawOp.text 0 18 ("Mem: " ++ toString (mem.used / 1048576) ++ "/" ++
             toString (mem.total / 1048576) ++ " MB " ++ mem.percentStr ++ "%"),
           diskLine disk]
    | _, _ => [gatheringLine]
  clearTopOp :: ops

/-- Embedding of `update_ui_bottom`. `textsize` is the width PIL reports for
a string in the loaded font (part of the display collaborator); `connection`
is the first component of `self._printer.get_current_connection()`;
`is_printing` is `self._printer.is_printing()`. In the printing branch,
`bar_width = int((self.width - 5) * percentage / 100)` is modelled by floor
division (truncation of a nonnegative quotient) and the percentage text is
`"%s%%" % (int(percentage * 100))`. -/
def update_ui_bottom (textsize : String → Nat) (connection : String)
    (is_printing : Bool) (pd : PrintData) : List DrawOp :=
  let top : ℚ := ((height - bottom_height : Nat) : ℚ)
  let clearBottom := DrawOp.rect 0 top width height (some 0) none
  if connection = "Closed" then
    let display_string := "Printer Not Connected"
    let text_width := textsize display_string
    [clearBottom, DrawOp.text ((width : ℚ) / 2 - (text_width : ℚ) / 2) (top + 6) display_string]
  else if ¬ is_printing then
    let display_string := "Waiting For Job"
    let text_width := textsize display_string
    [clearBottom, DrawOp.text ((width : ℚ) / 2 - (text_width : ℚ) / 2) (top + 6) display_string]
  else
    let percentage := pd.progress
    let bar_width := (width - 5) * percentage / 100
    let finish_wall_time := "12:34"
    let wall_time_width := textsize finish_wall_time
    [clearBottom,
     DrawOp.rect 0 (top + 2) ((width : ℚ) - 1) (top + 10) (some 0) (some 255),
     DrawOp.rect 2 (top + 4) (bar_width : ℚ) (top + 8) (some 255) (some 255),
     DrawOp.text 0 (top + 12) (toString (percentage * 100) ++ "%"),
     DrawOp.text ((width : ℚ) - (wall_time_width : ℚ)) (top + 12) finish_wall_time]

/-- The plugin state touched by the event and input handlers: the current
screen mode and the print data dict. -/
structure PanelState where
  screen_mode : ScreenMode
  print_data : PrintData
deriving DecidableEq, Repr

/-- The OctoPrint events the handler inspects. -/
inductive Event where
  | CONNECTED
  | CONNECTING
  | CONNECTIVITY_CHANGED
  | DISCONNECTED
  | DISCONNECTING
  | PRINT_STARTED
  | PRINT_PAUSED
  | PRINT_FAILED
  | PRINT_RESUMED
  | PRINT_DONE
  | PRINT_CANCELLED
deriving DecidableEq, Repr

/-- Embedding of `on_event`: a PRINT_STARTED event stores the payload name in
the print data and forces the screen mode to PRINT; every other listed event
only triggers a redraw and leaves the state unchanged. -/
def on_event (event : Event) (payload_name : String) (s : PanelState) : PanelState :=
  if event = .PRINT_STARTED then
    { s with print_data := { s.print_data with fileName := payload_name },
             screen_mode := .PRINT }
  else s

/-- Embedding of `on_print_progress`: store the new progress percentage and
redraw; the mode and the file name are untouched. -/
def on_print_progress (progress : Nat) (s : PanelState) : PanelState :=
  { s with print_data := { s.print_data with progress := progress } }

/-- The BCM pin map of the source. -/
def BCM_PINS : List (Nat × String) := [(4, "mode"), (22, "cancel"), (17, "play"), (27, "pause")]

/-- The BOARD pin map of the source. -/
def BOARD_PINS : List (Nat × String) := [(7, "mode"), (15, "cancel"), (11, "play"), (13, "pause")]

/-- Embedding of `next_mode`: advance the screen mode and redraw. The Bool
records that `update_ui` ran. -/
def next_mode (s : PanelState) : PanelState × Bool :=
  ({ s with screen_mode := s.screen_mode.next }, true)

/-- Embedding of `handle_gpio_event`: look the channel up in the active
pinset; a channel labelled "mode" advances the mode and redraws, any other
known label is only logged, and an unknown channel does nothing. The Bool
records whether `update_ui` ran. -/
def handle_gpio_event (input_pinset : List (Nat × String)) (channel : Nat)
    (s : PanelState) : PanelState × Bool :=
  match input_pinset.lookup channel with
  | some label => if label = "mode" then next_mode s else (s, false)
  | none => (s, false)

/-- Result of one timer tick of `check_system_stats`: the (possibly partially
updated) stats dict, whether `update_ui` ran, and the exception that escaped
the function, if any. -/
structure TickResult where
  stats : SystemStats
  ui_updated : Bool
  raised : Option String
deriving DecidableEq, Repr

/-- Embedding of `check_system_stats`. Each collaborator call (the UDP socket
probe yielding the IP, `psutil.getloadavg`, `psutil.virtual_memory`,
`shutil.disk_usage`) may raise, modelled by `Except`; the function body has
no try/except, so the first failure escapes, keeping the assignments already
made to the stats dict. When every call succeeds and the screen mode is
SYSTEM, `update_ui` runs. -/
def check_system_stats (probe : Except String String)
    (loadavg : Except String LoadAvg) (virtual_memory : Except String MemInfo)
    (disk_usage : Except String DiskUsage) (mode : ScreenMode)
    (st : SystemStats) : TickResult :=
  match probe with
  | .error e => ⟨st, false, some e⟩
  | .ok ip =>
    let st := { st with ip := some ip }
    match loadavg with
    | .error e => ⟨st, false, some e⟩
    | .ok l =>
      let st := { st with load := some l }
      match virtual_memory with
      | .error e => ⟨st, false, some e⟩
      | .ok m =>
        let st := { st with memory := some m }
        match disk_usage with
        | .error e => ⟨st, false, some e⟩
        | .ok d =>
          let st := { st with disk := some d }
          ⟨st, mode == ScreenMode.SYSTEM, none⟩

/-- Device-side resources the controller owns: what the physical display
shows, whether the repeated stats timer is running, and whether the GPIO edge
callbacks are attached. -/
structure DeviceState where
  display_blank : Bool
  timer_active : Bool
  gpio_events_attached : Bool
deriving DecidableEq, Repr

/-- Embedding of `clear_display`: `disp.fill(0); disp.show()` blanks the
physical display and touches nothing else. -/
def clear_display (d : DeviceState) : DeviceState :=
  { d with display_blank := true }

/-- Embedding of `start_system_timer`: construct and start the RepeatedTimer. -/
def start_system_timer (d : DeviceState) : DeviceState :=
  { d with timer_active := true }

/-- Embedding of `on_shutdown` (the stop operation): its whole body is the
single call `self.clear_display()`; the timer and the GPIO callbacks are not
touched by it. -/
def on_shutdown (d : DeviceState) : DeviceState :=
  clear_display d

/-- The bouncetime the source passes to `GPIO.add_event_detect` in
`configure_gpio`, in milliseconds. -/
def bouncetime : Nat := 200

/-- Modelled from the spec: the debounce logic itself lives in the external
GPIO collaborator (in the source it is entirely the argument
`bouncetime=200` of `GPIO.add_event_detect`), so only its 200 ms threshold is
code under src. Following the InputDebouncer contract of the spec, a rising
edge at time `t` on one channel is accepted iff no edge was accepted yet or
the time since the last accepted edge reaches the threshold, the boundary
being inclusive. -/
def debounce_accept (last_accepted : Option Nat) (t : Nat) : Bool :=
  match last_accepted with
  | none => true
  | some l => bouncetime ≤ t - l

/-- Modelled from the spec: fold `debounce_accept` over a time-ordered list
of raw rising-edge timestamps of one channel, keeping the accepted ones. -/
def debounce_run (last_accepted : Option Nat) : List Nat → List Nat
  | [] => []
  | t :: ts =>
    if debounce_accept last_accepted t then t :: debounce_run (some t) ts
    else debounce_run last_accepted ts

/-- Modelled from the spec: the accepted events of a fresh channel. -/
def debounce (edges : List Nat) : List Nat := debounce_run none edges

/-- C1 counterexample: advancing from SYSTEM yields PRINT, not PRINTER as the
claim states, because the Enum lists its members in the definition order
PRINT, PRINTER, SYSTEM and `next` wraps past the end of that list. -/
theorem next_system_is_print_not_printer :
    ScreenMode.next .SYSTEM = .PRINT ∧ ScreenMode.next .SYSTEM ≠ .PRINTER := by
  decide

/-- C1 (amended): `ScreenMode.next` follows the fixed cyclic order
PRINT -> PRINTER -> SYSTEM -> PRINT; in particular next SYSTEM = PRINT,
next PRINT = PRINTER and next PRINTER = SYSTEM. -/
theorem next_cycle_order :
    ScreenMode.next .SYSTEM = .PRINT ∧ ScreenMode.next .PRINT = .PRINTER ∧
      ScreenMode.next .PRINTER = .SYSTEM := by
  decide

/-- C2: evaluating `update_ui_bottom` with the printer connected and printing
at progress 50 on the 128-wide display. The filled bar rectangle does reach
x = 61 = (128 - 5) * 50 / 100, matching the claimed width formula, but the
percentage text drawn at the left is "5000%", not "50%": the code formats
`int(percentage * 100)` although `percentage` is already the 0..100 percent
value. -/
theorem update_ui_bottom_printing_eval (textsize : String → Nat) :
    update_ui_bottom textsize "Operational" true ⟨"part.gcode", 50⟩ =
      [DrawOp.rect 0 42 width height (some 0) none,
       DrawOp.rect 0 44 127 52 (some 0) (some 255),
       DrawOp.rect 2 46 61 50 (some 255) (some 255),
       DrawOp.text 0 54 "5000%",
       DrawOp.text ((width : ℚ) - (textsize "12:34" : ℚ)) 54 "12:34"] ∧
    (width - 5) * 50 / 100 = 61 := by
  constructor
  · norm_num [update_ui_bottom, width, height, bottom_height]
    rw [if_neg (by decide)]
    rfl
  · decide

/-- C3 counterexample: a failing network probe is not absorbed by
`check_system_stats` — the exception escapes the tick (the claim states it is
caught at the call site). -/
theorem check_system_stats_probe_error_escapes :
    (check_system_stats (.error "ENETUNREACH") (.ok ⟨"0.1", "0.2", "0.3"⟩)
        (.ok ⟨0, 0, "0.0"⟩) (.ok ⟨0, 0, 0⟩) .SYSTEM {}).raised =
      some "ENETUNREACH" := by
  decide

/-- C3 (amended): `check_system_stats` has no try/except, so any collaborator
failure propagates out of the tick: whenever one of the four collaborator
calls fails, the tick ends with an escaped exception and without running
`update_ui`; the keys assigned before the failure are kept. -/
theorem check_system_stats_propagates_failure (probe : Except String String)
    (loadavg : Except String LoadAvg) (virtual_memory : Except String MemInfo)
    (disk_usage : Except String DiskUsage) (mode : ScreenMode) (st : SystemStats)
    (h : (∃ e, probe = .error e) ∨ (∃ e, loadavg = .error e) ∨
      (∃ e, virtual_memory = .error e) ∨ (∃ e, disk_usage = .error e)) :
    (check_system_stats probe loadavg virtual_memory disk_usage mode st).raised.isSome ∧
      (check_system_stats probe loadavg virtual_memory disk_usage mode st).ui_updated = false := by
  rcases probe with e | ip
  · simp [check_system_stats]
  rcases loadavg with e | l
  · simp [check_system_stats]
  rcases virtual_memory with e | m
  · simp [check_system_stats]
  rcases disk_usage with e | d
  · simp [check_system_stats]
  simp at h

/-- The stats dict before the first successful collection: all keys absent. -/
def emptyStats : SystemStats := {}

/-- C4 counterexample: a stats dict holding ip, memory and disk but no load
(the load key missing) makes `update_ui_system` draw the IP stat line and
then, when the load lookup raises, the placeholder below it — so a partial
stat line does appear together with the placeholder, against the claim. -/
theorem update_ui_system_partial_line_with_load_missing :
    update_ui_system
        { ip := some "10.0.0.1", load := none,
          memory := some ⟨536870912, 1073741824, "50.0"⟩,
          disk := some ⟨107374182400, 32212254720, 75161927680⟩ } =
      [clearTopOp, DrawOp.text 0 0 "IP: 10.0.0.1", gatheringLine] ∧
    update_ui_system
        { ip := some "10.0.0.1", load := none,
          memory := some ⟨536870912, 1073741824, "50.0"⟩,
          disk := some ⟨107374182400, 32212254720, 75161927680⟩ } ≠
      [clearTopOp, gatheringLine] := by
  decide

/-- C4 (amended): on an incomplete stats dict, `update_ui_system` draws the
placeholder alone, except in the one unreachable shape where ip, memory and
disk are present but load is missing, in which case the IP line precedes the
placeholder; on every dict the collector can actually produce, incomplete
means the placeholder alone. -/
theorem update_ui_system_incomplete_placeholder (st : SystemStats)
    (h : ¬ st.complete) :
    (st.collector_reachable → update_ui_system st = [clearTopOp, gatheringLine]) ∧
      (update_ui_system st = [clearTopOp, gatheringLine] ∨
        (st.load = none ∧ st.memory.isSome ∧ st.disk.isSome ∧
          ∃ ip, st.ip = some ip ∧
            update_ui_system st =
              [clearTopOp, DrawOp.text 0 0 ("IP: " ++ ip), gatheringLine])) := by
  obtain ⟨ip, load, mem, disk⟩ := st
  rcases mem with _ | m <;> rcases disk with _ | d <;> rcases ip with _ | i <;>
    rcases load with _ | l <;>
    simp_all [SystemStats.complete, SystemStats.collector_reachable, update_ui_system]

/-- C4 witness: the amended theorem applied to the empty dict. -/
theorem update_ui_system_incomplete_placeholder_witness :
    ¬ emptyStats.complete ∧
      ((emptyStats.collector_reachable →
          update_ui_system emptyStats = [clearTopOp, gatheringLine]) ∧
        (update_ui_system emptyStats = [clearTopOp, gatheringLine] ∨
          (emptyStats.load = none ∧ emptyStats.memory.isSome ∧
            emptyStats.disk.isSome ∧ ∃ ip, emptyStats.ip = some ip ∧
              update_ui_system emptyStats =
                [clearTopOp, DrawOp.text 0 0 ("IP: " ++ ip), gatheringLine]))) :=
  ⟨by simp [emptyStats, SystemStats.complete],
    update_ui_system_incomplete_placeholder emptyStats
      (by simp [emptyStats, SystemStats.complete])⟩

/-- C5: a PRINT_STARTED event with payload name `n` sets the file name to `n`
and forces the screen mode to PRINT, from every prior state (so every prior
mode); the progress field is untouched. -/
theorem on_event_print_started_sets_mode_and_name (s : PanelState) (n : String) :
    on_event .PRINT_STARTED n s = ⟨.PRINT, ⟨n, s.print_data.progress⟩⟩ := by
  simp [on_event]

/-- C6: evaluating the SYSTEM disk line at used = 30 GiB, total = 100 GiB,
free = 70 GiB. The percent is 30.0 as claimed and the first figure is
used / 2^30 = 30, but the second figure is (used + total) / 2^30 = 130, not
total / 2^30 = 100 as the claim states: the code adds `disk.used` to
`disk.total` before converting to GB. -/
theorem diskLine_eval_shows_used_plus_total :
    diskLine ⟨107374182400, 32212254720, 75161927680⟩ =
      DrawOp.text 0 27 "Disk: 30/130 GB 30.0%" ∧
    (107374182400 : Nat) / 1073741824 = 100 ∧
    disk_percent_times_100 ⟨107374182400, 32212254720, 75161927680⟩ = 3000 := by
  decide

/-- C7 counterexample: `on_shutdown` run on a device whose timer is active
and whose GPIO callbacks are attached leaves both in place — the stop
operation does not release them, against the claim. -/
theorem on_shutdown_keeps_timer_and_gpio :
    (on_shutdown ⟨false, true, true⟩).timer_active = true ∧
      (on_shutdown ⟨false, true, true⟩).gpio_events_attached = true := by
  decide

/-- C7 (amended): calling stop twice is the same as calling it once (so the
second call cannot raise), the display is left cleared, and the timer and the
GPIO callbacks keep whatever state they had — stop does not release them. -/
theorem on_shutdown_idempotent_clears_display (d : DeviceState) :
    on_shutdown (on_shutdown d) = on_shutdown d ∧
      (on_shutdown d).display_blank = true ∧
      (on_shutdown d).timer_active = d.timer_active ∧
      (on_shutdown d).gpio_events_attached = d.gpio_events_attached := by
  obtain ⟨b, t, g⟩ := d
  simp [on_shutdown, clear_display]

/-- C8: advancing the screen mode exactly three times returns to the start,
for every mode: `next` composed with itself three times is the identity. -/
theorem next_cubed_identity (m : ScreenMode) :
    m.next.next.next = m := by
  cases m <;> rfl

/-- C9: on one channel, two rising edges 150 ms apart yield exactly one
accepted event, and two edges exactly 200 ms apart yield two — the 200 ms
threshold passed to the GPIO collaborator is an inclusive boundary. -/
theorem debounce_150_one_200_two (t : Nat) :
    debounce [t, t + 150] = [t] ∧ debounce [t, t + 200] = [t, t + 200] := by
  simp [debounce, debounce_run, debounce_accept, bouncetime, Nat.add_sub_cancel_left]

/-- C10: a GPIO event on a channel that does not map to the label "mode"
(cancel, play, pause, or an unknown channel) leaves the panel state exactly
as it was and runs no redraw; only the "mode" label changes anything. -/
theorem handle_gpio_event_non_mode_noop (input_pinset : List (Nat × String))
    (channel : Nat) (s : PanelState)
    (h : input_pinset.lookup channel ≠ some "mode") :
    handle_gpio_event input_pinset channel s = (s, false) := by
  unfold handle_gpio_event
  cases hl : input_pinset.lookup channel with
  | none => rfl
  | some label =>
    have hlabel : ¬ label = "mode" := by
      intro he
      exact h (by rw [hl, he])
    simp [hlabel]

/-- C10 witness: the noop theorem applied to the BCM cancel pin (22). -/
theorem handle_gpio_event_non_mode_noop_witness :
    BCM_PINS.lookup 22 ≠ some "mode" ∧
      handle_gpio_event BCM_PINS 22 ⟨ScreenMode.SYSTEM, ⟨"", 0⟩⟩ =
        (⟨ScreenMode.SYSTEM, ⟨"", 0⟩⟩, false) :=
  ⟨by decide, handle_gpio_event_non_mode_noop _ _ _ (by decide)⟩

/-- C3 witness: the propagation theorem applied at a concrete failing probe. -/
theorem check_system_stats_propagates_failure_witness :
    (check_system_stats (.error "ENETUNREACH") (.ok ⟨"0.1", "0.2", "0.3"⟩)
        (.ok ⟨0, 0, "0.0"⟩) (.ok ⟨0, 0, 0⟩) .PRINTER {}).raised.isSome ∧
      (check_system_stats (.error "ENETUNREACH") (.ok ⟨"0.1", "0.2", "0.3"⟩)
        (.ok ⟨0, 0, "0.0"⟩) (.ok ⟨0, 0, 0⟩) .PRINTER {}).ui_updated = false :=
  check_system_stats_propagates_failure _ _ _ _ _ _ (Or.inl ⟨"ENETUNREACH", rfl⟩)

end DisplayPanel
